import Mathlib

/-!
Shallow embedding of the ecobee-manager service (henninb/ecobee-manager) and
verification of its specification claims.

Temperatures and timestamps are modelled as rationals (the Python code uses
floats over tenth-of-degree vendor units and second-resolution clock reads);
machine-level float rounding is not relevant to any claim checked here.
Network and browser effects are modelled by passing their outcomes as
explicit parameters; state mutation is modelled by explicit state passing.
-/

namespace Ecobee

/-! ## temperature_controller.py -/

/-- Tolerance constant `TEMPERATURE_TOLERANCE = 0.5` of `TemperatureController`. -/
def TEMPERATURE_TOLERANCE : ℚ := 1/2

/-- Embedding of `TemperatureController.temperatures_match`:
`diff = abs(current - expected); return diff <= self.TEMPERATURE_TOLERANCE`. -/
def temperatures_match (current expected : ℚ) : Bool :=
  decide (|current - expected| ≤ TEMPERATURE_TOLERANCE)

/-- Embedding of the hold-duration computation in `TemperatureController.set_temperature`:
`"holdHours": duration_minutes // 60 if duration_minutes >= 60 else 1`.
Python `//` on integers is floor division, hence `Int.fdiv`. -/
def set_temperature_holdHours (duration_minutes : ℤ) : ℤ :=
  if 60 ≤ duration_minutes then Int.fdiv duration_minutes 60 else 1

/-- Remote sensor as parsed by `select_sensors_toward_target` from the raw
thermostat payload: the capability lookup
`int(temp_raw) / 10 if temp_raw and temp_raw != 'unknown' else None`
is modelled by an optional rational temperature (`none` = missing/unknown). -/
structure RawSensor where
  id : String
  name : String
  temperature : Option ℚ
deriving DecidableEq

/-- Entry of the `readable` list built by `select_sensors_toward_target`:
`{'id': s['id'], 'name': s['name'], 'temp': int(temp_raw) / 10}`. -/
structure ReadableSensor where
  id : String
  name : String
  temp : ℚ
deriving DecidableEq

/-- Element of the result list of `select_sensors_toward_target`
(`{'id': ..., 'name': ...}` dicts). -/
structure SelectedSensor where
  id : String
  name : String
deriving DecidableEq

/-- The `readable` list: sensors whose temperature capability is present and
not `'unknown'`. -/
def readableOf (raw_sensors : List RawSensor) : List ReadableSensor :=
  raw_sensors.filterMap fun s => s.temperature.map fun t => ⟨s.id, s.name, t⟩

/-- `avg = sum(s['temp'] for s in readable) / len(readable)`. -/
def sensorAvg (readable : List ReadableSensor) : ℚ :=
  (readable.map (·.temp)).sum / readable.length

/-- `max(1, len(readable) // 2)` — the fallback half-size used by
`select_sensors_toward_target`. -/
def halfCount (n : ℕ) : ℕ := max 1 (n / 2)

/-- Python `sorted(readable, key=lambda s: s['temp'])`: stable ascending sort
by temperature. -/
def sortByTempAsc (readable : List ReadableSensor) : List ReadableSensor :=
  List.insertionSort (fun a b => a.temp ≤ b.temp) readable

/-- Python `sorted(readable, key=lambda s: s['temp'], reverse=True)`: stable
descending sort by temperature. -/
def sortByTempDesc (readable : List ReadableSensor) : List ReadableSensor :=
  List.insertionSort (fun a b => b.temp ≤ a.temp) readable

/-- The `candidates` list computed by `select_sensors_toward_target` from the
readable sensors: filter toward the target, falling back to the extreme half
(`[:max(1, len(readable) // 2)]`) when the filter is empty. -/
def candidatesOf (readable : List ReadableSensor) (target_temp : ℚ) : List ReadableSensor :=
  let avg := sensorAvg readable
  if avg > target_temp then
    let cs := readable.filter fun s => s.temp ≤ target_temp
    if cs = [] then (sortByTempAsc readable).take (halfCount readable.length) else cs
  else if avg < target_temp then
    let cs := readable.filter fun s => target_temp ≤ s.temp
    if cs = [] then (sortByTempDesc readable).take (halfCount readable.length) else cs
  else
    readable

/-- Embedding of `TemperatureController.select_sensors_toward_target`.
`climate_sensor_map` is the optional name-to-climate-sensor dict; a `none`
map models both `None` and the falsy empty dict. -/
def select_sensors_toward_target (raw_sensors : List RawSensor) (target_temp : ℚ)
    (climate_sensor_map : Option (String → Option SelectedSensor)) : List SelectedSensor :=
  let readable := readableOf raw_sensors
  if readable = [] then
    raw_sensors.map fun s => ⟨s.id, s.name⟩
  else
    (candidatesOf readable target_temp).map fun s =>
      match climate_sensor_map with
      | some m =>
        match m s.name with
        | some cs => cs
        | none => ⟨s.id, s.name⟩
      | none => ⟨s.id, s.name⟩

/-! ## schedule_engine.py -/

/-- Day of week, as produced by `dt.strftime('%A').lower()`. -/
inductive Day where
  | monday | tuesday | wednesday | thursday | friday | saturday | sunday
deriving DecidableEq

/-- Previous day in the list
`['monday', ..., 'sunday']` via `days[(current_idx - 1) % 7]`. -/
def Day.prev : Day → Day
  | .monday => .sunday
  | .tuesday => .monday
  | .wednesday => .tuesday
  | .thursday => .wednesday
  | .friday => .thursday
  | .saturday => .friday
  | .sunday => .saturday

/-- Embedding of `ScheduleEntry`: a time of day (minutes since midnight, from
the `"%H:%M"` parse) and a temperature in whole degrees Fahrenheit. -/
structure ScheduleEntry where
  time : ℕ
  temperature : ℤ
deriving DecidableEq

/-- Embedding of the `ScheduleEngine` state after `load_schedule`:
the per-day entry lists (an unconfigured day maps to the empty list, matching
`self.schedule.get(day_name, [])`) and the default temperature. -/
structure ScheduleEngine where
  default_temperature : ℤ
  schedule : Day → List ScheduleEntry

/-- The scan loop of `get_expected_temperature`:
`for entry in day_schedule: if entry.time <= current_time: applicable_entry = entry
else: break`. The result is the last entry of the longest prefix whose entries
all start at or before `t`. -/
def findApplicable (t : ℕ) : List ScheduleEntry → Option ScheduleEntry
  | [] => none
  | e :: rest => if e.time ≤ t then some ((findApplicable t rest).getD e) else none

/-- Embedding of `ScheduleEngine._get_last_temperature_from_previous_day`:
the previous day's last entry temperature, or `none` when that day is empty. -/
def get_last_temperature_from_previous_day (eng : ScheduleEngine) (current_day : Day) :
    Option ℤ :=
  match (eng.schedule current_day.prev).getLast? with
  | some e => some e.temperature
  | none => none

/-- Embedding of `ScheduleEngine.get_expected_temperature` at a given day of
week and time of day (minutes since midnight): empty day falls back to the
default; otherwise the last entry at or before `t`, falling back to the
previous day's last entry, then to the default. The function always returns
a temperature (`int` in the source), never an absent value. -/
def get_expected_temperature (eng : ScheduleEngine) (day : Day) (t : ℕ) : ℤ :=
  let day_schedule := eng.schedule day
  if day_schedule = [] then
    eng.default_temperature
  else
    match findApplicable t day_schedule with
    | some e => e.temperature
    | none =>
      match get_last_temperature_from_previous_day eng day with
      | some temp => temp
      | none => eng.default_temperature

/-! ## ecobee_service_jwt.py -/

/-- Mutable service fields of `EcobeeServiceJWT` relevant to the claims:
the consecutive-error counter, the revert-timestamp deque, and the `running`
flag of the main loop. -/
structure ServiceState where
  running : Bool
  consecutive_errors : ℕ
  recent_reverts : List ℚ
deriving DecidableEq

/-- Threshold constant `self.error_threshold = 3`. -/
def error_threshold : ℕ := 3

/-- Append to a `collections.deque(maxlen=n)`: the new element goes to the
back and the oldest elements are dropped from the front once length exceeds
`n`. `recent_reverts` uses `maxlen=60`. -/
def dequeAppend (maxlen : ℕ) (xs : List ℚ) (x : ℚ) : List ℚ :=
  let ys := xs ++ [x]
  ys.drop (ys.length - maxlen)

/-- Embedding of `EcobeeServiceJWT._check_excessive_changes`: count reverts
strictly newer than `now - 3600` seconds and warn when the count exceeds 10.
Returns whether the warning fires (in the source it is only logged). -/
def check_excessive_changes (recent_reverts : List ℚ) (now : ℚ) : Bool :=
  let one_hour_ago := now - 3600
  let recent_count := recent_reverts.countP fun revert_time => decide (one_hour_ago < revert_time)
  decide (10 < recent_count)

/-- Result of one call to `check_and_update_temperature`: the successor state
plus observable effects (whether the temperature comparison ran, whether a
correction command was issued, whether the excessive-change warning fired). -/
structure CheckResult where
  state : ServiceState
  compared : Bool
  correctionIssued : Bool
  excessiveWarning : Bool
deriving DecidableEq

/-- Embedding of `EcobeeServiceJWT.check_and_update_temperature`. The network
outcomes are parameters: `fetched` is the result of
`get_current_temperature_setting` (`none` = failure) and `setOk` the success
of `set_temperature`. `expected` is the schedule engine's expected
temperature and `now` the wall-clock read used for revert tracking. -/
def check_and_update_temperature (st : ServiceState) (expected : ℚ)
    (fetched : Option ℚ) (setOk : Bool) (now : ℚ) : CheckResult :=
  match fetched with
  | none =>
    ⟨{ st with consecutive_errors := st.consecutive_errors + 1 }, false, false, false⟩
  | some current =>
    if temperatures_match current expected then
      ⟨{ st with consecutive_errors := 0 }, true, false, false⟩
    else if setOk then
      let reverts := dequeAppend 60 st.recent_reverts now
      ⟨{ st with consecutive_errors := 0, recent_reverts := reverts }, true, true,
        check_excessive_changes reverts now⟩
    else
      ⟨{ st with consecutive_errors := st.consecutive_errors + 1 }, true, false, false⟩

/-- Result of one iteration of the `run` loop body after the temperature
check: successor state and whether the consecutive-error warning fired. The
loop itself only stops when `running` is cleared by a signal handler. -/
structure StepResult where
  state : ServiceState
  thresholdWarning : Bool
deriving DecidableEq

/-- Embedding of one iteration of `EcobeeServiceJWT.run` after a successful
token refresh: run the temperature check, then
`if self.consecutive_errors >= self.error_threshold:` log the warning and
reset the counter. Nothing in this path touches `self.running`. -/
def run_step (st : ServiceState) (expected : ℚ) (fetched : Option ℚ) (setOk : Bool)
    (now : ℚ) : StepResult :=
  let r := check_and_update_temperature st expected fetched setOk now
  let st1 := r.state
  if error_threshold ≤ st1.consecutive_errors then
    ⟨{ st1 with consecutive_errors := 0 }, true⟩
  else
    ⟨st1, false⟩

/-! ## ecobee_auth_jwt.py -/

/-- Lifetime constant `TOKEN_LIFETIME = 3600` (seconds). -/
def TOKEN_LIFETIME : ℚ := 3600

/-- Buffer constant `REFRESH_BUFFER = 300` (seconds). -/
def REFRESH_BUFFER : ℚ := 300

/-- Credential fields of `EcobeeAuthJWT` (timestamps in seconds since an
arbitrary epoch, matching `.total_seconds()` comparisons in the source). -/
structure AuthState where
  jwt_token : Option String
  token_expires_at : Option ℚ
  last_refreshed : Option ℚ
deriving DecidableEq

/-- Embedding of `EcobeeAuthJWT.needs_refresh`: missing expiry means refresh;
otherwise refresh when `(expires_at - now).total_seconds() < REFRESH_BUFFER`
(strict comparison). -/
def needs_refresh (st : AuthState) (now : ℚ) : Bool :=
  match st.token_expires_at with
  | none => true
  | some exp => decide (exp - now < REFRESH_BUFFER)

/-- Embedding of `EcobeeAuthJWT.is_token_valid`:
false when expiry or token is missing, else `now < expires_at`. -/
def is_token_valid (st : AuthState) (now : ℚ) : Bool :=
  match st.token_expires_at, st.jwt_token with
  | some exp, some _ => decide (now < exp)
  | _, _ => false

/-- Embedding of `EcobeeAuthJWT.login_and_extract_token`. The browser flow's
outcome is the parameter: `some tok` models a successful extraction of the
`_TOKEN` cookie, `none` any failure path (timeout, missing cookie,
exception). On success the state gets the new token with
`expires_at = now + TOKEN_LIFETIME` and `last_refreshed = now`; every failure
path returns `False` without touching the stored credential fields. -/
def login_and_extract_token (st : AuthState) (outcome : Option String) (now : ℚ) :
    AuthState × Bool :=
  match outcome with
  | some tok =>
    (⟨some tok, some (now + TOKEN_LIFETIME), some now⟩, true)
  | none => (st, false)

/-- Result of `refresh_token`: final state, success flag, the sleep durations
performed between attempts, and the number of login attempts made. -/
structure RefreshResult where
  state : AuthState
  ok : Bool
  sleeps : List ℚ
  attempts : ℕ
deriving DecidableEq

/-- The `for attempt in range(max_retries)` loop of
`EcobeeAuthJWT.refresh_token`, from loop index `attempt` on. `outcomes i`
is the browser outcome of the `i`-th login attempt. After a failed attempt
that is not the last, the loop sleeps `2 ** attempt` seconds. -/
def refresh_go (outcomes : ℕ → Option String) (now : ℚ) (max_retries : ℕ)
    (st : AuthState) (attempt : ℕ) : RefreshResult :=
  if _h : attempt < max_retries then
    match login_and_extract_token st (outcomes attempt) now with
    | (st', true) => ⟨st', true, [], 1⟩
    | (st', false) =>
      let sleeps_here : List ℚ :=
        if attempt < max_retries - 1 then [(2 : ℚ) ^ attempt] else []
      let r := refresh_go outcomes now max_retries st' (attempt + 1)
      ⟨r.state, r.ok, sleeps_here ++ r.sleeps, r.attempts + 1⟩
  else
    ⟨st, false, [], 0⟩
termination_by max_retries - attempt

/-- Embedding of `EcobeeAuthJWT.refresh_token(max_retries=3)`: run the retry
loop from attempt 0; when the loop exhausts all attempts the method logs and
returns `False` (it never raises). -/
def refresh_token (st : AuthState) (outcomes : ℕ → Option String) (now : ℚ)
    (max_retries : ℕ) : RefreshResult :=
  refresh_go outcomes now max_retries st 0

/-- The tail of `EcobeeAuthJWT.get_token` once a token is in memory: refresh
when needed (returning `none` on refresh failure), else hand out the stored
token. -/
def get_token_loaded (st : AuthState) (outcomes : ℕ → Option String) (now : ℚ) :
    Option String × AuthState :=
  if needs_refresh st now then
    let r := refresh_token st outcomes now 3
    if r.ok then (r.state.jwt_token, r.state) else (none, r.state)
  else
    (st.jwt_token, st)

/-- Embedding of `EcobeeAuthJWT.get_token`. `fileState` is the credential
record `load_token` would install when no token is in memory (`none` = no
usable token file); `outcomes` are the browser outcomes of any refresh
attempts performed. Returns the token handed to the caller and the final
credential state. -/
def get_token (st : AuthState) (fileState : Option AuthState)
    (outcomes : ℕ → Option String) (now : ℚ) : Option String × AuthState :=
  match st.jwt_token with
  | none =>
    match fileState with
    | none => (none, st)
    | some fs => get_token_loaded fs outcomes now
  | some _ => get_token_loaded st outcomes now

/-! ## Claim C4: temperature tolerance -/

/-- C4: for all current and expected temperatures the match predicate holds
exactly when `|current - expected| ≤ 0.5`; `temperaturesMatch(68.4, 68)` is
true, `temperaturesMatch(69, 68)` is false, and a difference of exactly 0.5
(here 68.5 vs 68) counts as a match. -/
theorem C4_temperatures_match_tolerance :
    (∀ current expected : ℚ,
      temperatures_match current expected = true ↔ |current - expected| ≤ 1/2)
    ∧ temperatures_match (684/10) 68 = true
    ∧ temperatures_match 69 68 = false
    ∧ temperatures_match (137/2) 68 = true := by
  have hiff : ∀ current expected : ℚ,
      temperatures_match current expected = true ↔ |current - expected| ≤ 1/2 := by
    intro c e
    simp [temperatures_match, TEMPERATURE_TOLERANCE]
  refine ⟨hiff, ?_, ?_, ?_⟩
  · rw [hiff]
    rw [abs_le]
    constructor <;> norm_num
  · rw [Bool.eq_false_iff, Ne, hiff, abs_le]
    intro h
    have := h.2
    norm_num at this
  · rw [hiff]
    rw [abs_le]
    constructor <;> norm_num

/-- C4 witness: the tolerance predicate evaluated at the boundary case from
the claim. -/
theorem C4_witness : temperatures_match (137/2) 68 = true :=
  C4_temperatures_match_tolerance.2.2.2

/-! ## Claim C10: hold duration granularity -/

/-- C10: the hold command coarsens its minutes-granularity duration to whole
hours: any requested duration below 60 minutes is sent as a 1-hour hold, any
duration of at least 60 minutes is sent as `floor(duration_minutes / 60)`
hours (characterized by `60*h ≤ d < 60*(h+1)`), and in particular a 90-minute
request is sent as a 1-hour hold. -/
theorem C10_hold_hours :
    (∀ d : ℤ, d < 60 → set_temperature_holdHours d = 1)
    ∧ (∀ d : ℤ, 60 ≤ d →
        60 * set_temperature_holdHours d ≤ d
        ∧ d < 60 * (set_temperature_holdHours d + 1))
    ∧ set_temperature_holdHours 90 = 1 := by
  refine ⟨?_, ?_, by decide⟩
  · intro d hd
    rw [set_temperature_holdHours, if_neg (by omega)]
  · intro d hd
    rw [set_temperature_holdHours, if_pos hd]
    rw [Int.fdiv_eq_ediv _ (by omega)]
    omega

/-- C10 witness: a 90-minute request is below no boundary case — evaluate the
theorem at 30 and at 90 minutes. -/
theorem C10_witness :
    ((30 : ℤ) < 60 ∧ set_temperature_holdHours 30 = 1)
    ∧ (60 ≤ (90 : ℤ) ∧ 60 * set_temperature_holdHours 90 ≤ 90) :=
  ⟨⟨by decide, C10_hold_hours.1 30 (by decide)⟩,
    ⟨by decide, (C10_hold_hours.2.1 90 (by decide)).1⟩⟩

/-! ## Sorting helper lemmas -/

section SortLemmas

variable {α : Type*} (r : α → α → Prop) [DecidableRel r]

lemma length_take_insertionSort (l : List α) (k : ℕ) :
    ((List.insertionSort r l).take k).length = min k l.length := by
  rw [List.length_take, List.length_insertionSort]

lemma pairwise_take_insertionSort [IsTotal α r] [IsTrans α r] (l : List α) (k : ℕ) :
    ((List.insertionSort r l).take k).Pairwise r :=
  List.Pairwise.sublist (List.take_sublist k _) (List.sorted_insertionSort r l)

lemma take_insertionSort_dominates [IsTotal α r] [IsTrans α r] (l : List α) (k : ℕ)
    (a : α) (ha : a ∈ (List.insertionSort r l).take k) (b : α) (hb : b ∈ l)
    (hnb : b ∉ (List.insertionSort r l).take k) : r a b := by
  have hbL : b ∈ List.insertionSort r l := (List.perm_insertionSort r l).symm.subset hb
  have hpw : ((List.insertionSort r l).take k ++ (List.insertionSort r l).drop k).Pairwise r := by
    rw [List.take_append_drop]
    exact List.sorted_insertionSort r l
  have hbL' : b ∈ (List.insertionSort r l).take k ++ (List.insertionSort r l).drop k := by
    rw [List.take_append_drop]
    exact hbL
  rcases List.mem_append.mp hbL' with hmem | hmem
  · exact absurd hmem hnb
  · exact (List.pairwise_append.mp hpw).2.2 a ha b hmem

end SortLemmas

instance : IsTotal ReadableSensor fun a b => a.temp ≤ b.temp :=
  ⟨fun a b => le_total a.temp b.temp⟩

instance : IsTrans ReadableSensor fun a b => a.temp ≤ b.temp :=
  ⟨fun _ _ _ hab hbc => le_trans hab hbc⟩

instance : IsTotal ReadableSensor fun a b => b.temp ≤ a.temp :=
  ⟨fun a b => le_total b.temp a.temp⟩

instance : IsTrans ReadableSensor fun a b => b.temp ≤ a.temp :=
  ⟨fun _ _ _ hab hbc => le_trans hbc hab⟩

/-! ## Claim C2: selection always returns at least one sensor -/

lemma one_le_length_candidatesOf (readable : List ReadableSensor) (target : ℚ)
    (h : readable ≠ []) : 1 ≤ (candidatesOf readable target).length := by
  have hlen : 0 < readable.length := List.length_pos.mpr h
  simp only [candidatesOf, halfCount]
  split_ifs with h1 h2 h3 h4
  · simp only [sortByTempAsc, List.length_take, List.length_insertionSort]
    omega
  · exact List.length_pos.mpr h2
  · simp only [sortByTempDesc, List.length_take, List.length_insertionSort]
    omega
  · exact List.length_pos.mpr h4
  · exact hlen

/-- C2: for every non-empty raw sensor list and every target, the selection
returns at least one sensor; when every reading's temperature is unknown it
returns the full original sensor set (as id/name records). -/
theorem C2_select_nonempty :
    ∀ (raw : List RawSensor) (target : ℚ)
      (cmap : Option (String → Option SelectedSensor)),
    raw ≠ [] →
    1 ≤ (select_sensors_toward_target raw target cmap).length
    ∧ ((∀ s ∈ raw, s.temperature = none) →
        select_sensors_toward_target raw target cmap
          = raw.map fun s => ⟨s.id, s.name⟩) := by
  intro raw target cmap hraw
  constructor
  · simp only [select_sensors_toward_target]
    split_ifs with hr
    · rw [List.length_map]
      exact List.length_pos.mpr hraw
    · rw [List.length_map]
      exact one_le_length_candidatesOf _ _ hr
  · intro hall
    have hre : readableOf raw = [] := by
      rw [readableOf, List.filterMap_eq_nil_iff]
      intro s hs
      rw [hall s hs]
      rfl
    simp only [select_sensors_toward_target]
    rw [if_pos hre]

/-- C2 witness: a single all-unknown sensor still yields a non-empty
selection equal to the original set. -/
theorem C2_witness :
    1 ≤ (select_sensors_toward_target [⟨"s0", "office", none⟩] 70 none).length
    ∧ select_sensors_toward_target [⟨"s0", "office", none⟩] 70 none
        = [⟨"s0", "office"⟩] :=
  ⟨(C2_select_nonempty [⟨"s0", "office", none⟩] 70 none (List.cons_ne_nil _ _)).1,
    ((C2_select_nonempty [⟨"s0", "office", none⟩] 70 none (List.cons_ne_nil _ _)).2
      (by intro s hs; simp at hs; rw [hs]))⟩

/-! ## Claim C3: fallback half is floor-sized, not ceiling-sized -/

/-- Three readable sensors at 70, 71 and 72 degrees; with target 60 the mean
is 71 > 60 and no sensor is at or below the target, so the fallback branch
of `select_sensors_toward_target` fires. -/
def exRaw3 : List RawSensor :=
  [⟨"r1", "bedroom", some 70⟩, ⟨"r2", "kitchen", some 71⟩, ⟨"r3", "attic", some 72⟩]

/-- The readable form of `exRaw3`. -/
def exReadable3 : List ReadableSensor :=
  [⟨"r1", "bedroom", 70⟩, ⟨"r2", "kitchen", 71⟩, ⟨"r3", "attic", 72⟩]

/-- C3 counterexample: with 3 readable sensors (70, 71, 72) and target 60,
the mean 71 exceeds the target and no sensor is at or below it, so the claim
says the fallback set is the coolest `⌈3/2⌉ = 2` sensors; the code takes
`max(1, 3 // 2) = 1` sensor, so the selection is the single coolest sensor,
refuting the ceiling-rounding claim at this input. -/
theorem C3_counterexample :
    select_sensors_toward_target exRaw3 60 none = [⟨"r1", "bedroom"⟩]
    ∧ ((readableOf exRaw3).length + 1) / 2 = 2 := by
  constructor
  · norm_num [select_sensors_toward_target, exRaw3, readableOf, candidatesOf, sensorAvg,
      halfCount, sortByTempAsc, sortByTempDesc, List.insertionSort, List.orderedInsert,
      List.filter, List.filterMap]
    intro h
    exact (List.cons_ne_nil _ _ h).elim
  · norm_num [readableOf, exRaw3, List.filterMap]

/-- C3 (amended): when the mean of readable temperatures exceeds the target
and no readable sensor is at or below the target, the fallback set is the
coolest half of the readable sensors with the half size rounded DOWN
(`max(1, floor(n/2))`, hence never fewer than one), sorted ascending by
temperature, and dominated by every unselected readable sensor; symmetrically
for mean below target (warmest floor-half, sorted descending). -/
theorem C3_amended_floor_half :
    (∀ (readable : List ReadableSensor) (target : ℚ),
      readable ≠ [] →
      sensorAvg readable > target →
      readable.filter (fun s => s.temp ≤ target) = [] →
      candidatesOf readable target
          = (sortByTempAsc readable).take (max 1 (readable.length / 2))
        ∧ (candidatesOf readable target).length = max 1 (readable.length / 2)
        ∧ (candidatesOf readable target).Pairwise (fun a b => a.temp ≤ b.temp)
        ∧ ∀ a ∈ candidatesOf readable target, ∀ b ∈ readable,
            b ∉ candidatesOf readable target → a.temp ≤ b.temp)
    ∧ (∀ (readable : List ReadableSensor) (target : ℚ),
      readable ≠ [] →
      sensorAvg readable < target →
      readable.filter (fun s => target ≤ s.temp) = [] →
      candidatesOf readable target
          = (sortByTempDesc readable).take (max 1 (readable.length / 2))
        ∧ (candidatesOf readable target).length = max 1 (readable.length / 2)
        ∧ (candidatesOf readable target).Pairwise (fun a b => b.temp ≤ a.temp)
        ∧ ∀ a ∈ candidatesOf readable target, ∀ b ∈ readable,
            b ∉ candidatesOf readable target → b.temp ≤ a.temp) := by
  constructor
  · intro readable target hne havg hfil
    have hn : 0 < readable.length := List.length_pos.mpr hne
    have heq : candidatesOf readable target
        = (sortByTempAsc readable).take (max 1 (readable.length / 2)) := by
      simp only [candidatesOf, halfCount]
      rw [if_pos havg, if_pos hfil]
    refine ⟨heq, ?_, ?_, ?_⟩
    · rw [heq]
      simp only [sortByTempAsc, List.length_take, List.length_insertionSort]
      omega
    · rw [heq]
      exact pairwise_take_insertionSort _ readable _
    · rw [heq]
      intro a ha b hb hnb
      exact take_insertionSort_dominates _ readable _ a ha b hb hnb
  · intro readable target hne havg hfil
    have hn : 0 < readable.length := List.length_pos.mpr hne
    have hng : ¬ sensorAvg readable > target := lt_asymm havg
    have heq : candidatesOf readable target
        = (sortByTempDesc readable).take (max 1 (readable.length / 2)) := by
      simp only [candidatesOf, halfCount]
      rw [if_neg hng, if_pos havg, if_pos hfil]
    refine ⟨heq, ?_, ?_, ?_⟩
    · rw [heq]
      simp only [sortByTempDesc, List.length_take, List.length_insertionSort]
      omega
    · rw [heq]
      exact pairwise_take_insertionSort _ readable _
    · rw [heq]
      intro a ha b hb hnb
      exact take_insertionSort_dominates _ readable _ a ha b hb hnb

lemma exReadable3_avg : sensorAvg exReadable3 > 60 := by
  norm_num [sensorAvg, exReadable3]

lemma exReadable3_filter : exReadable3.filter (fun s => s.temp ≤ (60 : ℚ)) = [] := by
  norm_num [exReadable3, List.filter]

/-- C3 witness: the amended theorem applied to the three-sensor example. -/
theorem C3_witness :
    (exReadable3 ≠ [] ∧ sensorAvg exReadable3 > 60
      ∧ exReadable3.filter (fun s => s.temp ≤ (60 : ℚ)) = [])
    ∧ (candidatesOf exReadable3 60).length = max 1 (exReadable3.length / 2) :=
  ⟨⟨List.cons_ne_nil _ _, exReadable3_avg, exReadable3_filter⟩,
    (C3_amended_floor_half.1 exReadable3 60 (List.cons_ne_nil _ _)
      exReadable3_avg exReadable3_filter).2.1⟩

/-! ## Claim C1: behaviour when no schedule window matches -/

/-- Engine with no configured windows at all and the stock default of 68. -/
def emptyEngine : ScheduleEngine := ⟨68, fun _ => []⟩

/-- C1 counterexample: at a timestamp with no matching window (the engine has
no windows at all), `get_expected_temperature` does not return an absent
value — it returns the global default 68 — and the reconciliation cycle
still performs the comparison and issues a correction command (here the
current setting 60 differs from the fallback 68 by more than the
tolerance). -/
theorem C1_counterexample :
    get_expected_temperature emptyEngine Day.monday 600 = 68
    ∧ (check_and_update_temperature ⟨true, 0, []⟩
        ((get_expected_temperature emptyEngine Day.monday 600 : ℤ) : ℚ)
        (some 60) true 0).compared = true
    ∧ (check_and_update_temperature ⟨true, 0, []⟩
        ((get_expected_temperature emptyEngine Day.monday 600 : ℤ) : ℚ)
        (some 60) true 0).correctionIssued = true := by
  have h1 : get_expected_temperature emptyEngine Day.monday 600 = 68 := rfl
  have h2 : temperatures_match 60 (68 : ℚ) = false := by
    rw [Bool.eq_false_iff, Ne, temperatures_match, TEMPERATURE_TOLERANCE,
      decide_eq_true_eq, abs_le]
    intro h
    have := h.1
    norm_num at this
  refine ⟨h1, ?_, ?_⟩ <;>
    simp [check_and_update_temperature, h1, h2]

/-- C1 (amended): when no schedule window matches, the lookup does not return
an absent value: a day with no entries yields the configured default
temperature, and a non-empty day with no entry at or before the current time
yields the previous day's last entry temperature (default when the previous
day is also empty); the reconciliation loop still performs the comparison
against this fallback whenever the current setting was fetched (and so can
issue a correction). -/
theorem C1_amended_fallback :
    (∀ (eng : ScheduleEngine) (day : Day) (t : ℕ),
      eng.schedule day = [] →
      get_expected_temperature eng day t = eng.default_temperature)
    ∧ (∀ (eng : ScheduleEngine) (day : Day) (t : ℕ),
      eng.schedule day ≠ [] →
      findApplicable t (eng.schedule day) = none →
      get_expected_temperature eng day t
        = (get_last_temperature_from_previous_day eng day).getD eng.default_temperature)
    ∧ (∀ (st : ServiceState) (expected current : ℚ) (setOk : Bool) (now : ℚ),
      (check_and_update_temperature st expected (some current) setOk now).compared
        = true) := by
  refine ⟨?_, ?_, ?_⟩
  · intro eng day t h
    simp only [get_expected_temperature]
    rw [if_pos h]
  · intro eng day t hne hfind
    simp only [get_expected_temperature]
    rw [if_neg hne, hfind]
    cases h : get_last_temperature_from_previous_day eng day <;> simp [h]
  · intro st expected current setOk now
    by_cases hm : temperatures_match current expected = true <;>
      cases setOk <;>
      simp [check_and_update_temperature, hm]

/-- C1 witness: the amended fallback theorem evaluated on the all-empty
engine and on a concrete reconciliation cycle. -/
theorem C1_witness :
    (emptyEngine.schedule Day.monday = []
      ∧ get_expected_temperature emptyEngine Day.monday 600
          = emptyEngine.default_temperature)
    ∧ (check_and_update_temperature ⟨true, 0, []⟩ 68 (some 60) true 0).compared = true :=
  ⟨⟨rfl, C1_amended_fallback.1 emptyEngine Day.monday 600 rfl⟩,
    C1_amended_fallback.2.2 ⟨true, 0, []⟩ 68 60 true 0⟩

/-! ## Claim C5: refresh boundary is strict -/

/-- C5 counterexample: with expiry at 300 and `now = 0` — exactly
`expiresAt - refreshBuffer` — `needs_refresh` returns `false`, because the
source compares `time_until_expiry < REFRESH_BUFFER` strictly; the claim
demands `true` at this lower boundary. -/
theorem C5_counterexample :
    needs_refresh ⟨some "tok", some 300, some 0⟩ 0 = false := by
  simp only [needs_refresh, REFRESH_BUFFER]
  rw [decide_eq_false_iff_not]
  norm_num

/-- C5 (amended): for a credential with a known expiry, `needs_refresh`
returns true exactly when `now` is strictly after `expiresAt - refreshBuffer`;
it is true throughout the open interval
`expiresAt - refreshBuffer < now < expiresAt` but false at the lower boundary
`now = expiresAt - refreshBuffer`. -/
theorem C5_needs_refresh_strict :
    (∀ (tok : Option String) (lr : Option ℚ) (exp now : ℚ),
      needs_refresh ⟨tok, some exp, lr⟩ now = true ↔ exp - REFRESH_BUFFER < now)
    ∧ (∀ (tok : Option String) (lr : Option ℚ) (exp now : ℚ),
      exp - REFRESH_BUFFER < now → now < exp →
      needs_refresh ⟨tok, some exp, lr⟩ now = true)
    ∧ (∀ (tok : Option String) (lr : Option ℚ) (exp : ℚ),
      needs_refresh ⟨tok, some exp, lr⟩ (exp - REFRESH_BUFFER) = false) := by
  have hiff : ∀ (tok : Option String) (lr : Option ℚ) (exp now : ℚ),
      needs_refresh ⟨tok, some exp, lr⟩ now = true ↔ exp - REFRESH_BUFFER < now := by
    intro tok lr exp now
    simp only [needs_refresh, REFRESH_BUFFER, decide_eq_true_eq]
    constructor <;> intro h <;> linarith
  refine ⟨hiff, ?_, ?_⟩
  · intro tok lr exp now h _
    exact (hiff tok lr exp now).mpr h
  · intro tok lr exp
    rw [Bool.eq_false_iff, Ne, hiff]
    intro h
    linarith

lemma c5_hyp1 : (1000 : ℚ) - REFRESH_BUFFER < 800 := by
  norm_num [REFRESH_BUFFER]

lemma c5_hyp2 : (800 : ℚ) < 1000 := by norm_num

/-- C5 witness: a point strictly inside the NearExpiry interval does trigger
a refresh. -/
theorem C5_witness :
    ((1000 : ℚ) - REFRESH_BUFFER < 800 ∧ (800 : ℚ) < 1000)
    ∧ needs_refresh ⟨some "tok", some 1000, some 0⟩ 800 = true :=
  ⟨⟨c5_hyp1, c5_hyp2⟩,
    C5_needs_refresh_strict.2.1 (some "tok") (some 0) 1000 800 c5_hyp1 c5_hyp2⟩

/-! ## Claim C7: excessive-change warning -/

lemma countP_replicate (p : ℚ → Bool) (n : ℕ) (a : ℚ) :
    (List.replicate n a).countP p = if p a then n else 0 := by
  induction n with
  | zero => simp
  | succ n ih =>
    rw [List.replicate_succ, List.countP_cons, ih]
    cases hpa : p a <;> simp [hpa]

lemma tm_60_68 : temperatures_match 60 68 = false := by
  rw [Bool.eq_false_iff, Ne, temperatures_match, TEMPERATURE_TOLERANCE,
    decide_eq_true_eq, abs_le]
  intro h
  have := h.1
  norm_num at this

/-- C7: the excessive-change check warns exactly when strictly more than 10
corrections fall within the trailing 60 minutes (11 identical-instant reverts
trigger it, 10 do not); the revert history append behaves as a bounded FIFO
of capacity 60 (length capped at 60, keeping a suffix — the newest entries —
of the appended history); and a successful correction is reported issued
whenever the temperatures mismatch and the set call succeeds, regardless of
the warning. -/
theorem C7_excessive_change_warning :
    (∀ (reverts : List ℚ) (now : ℚ),
      check_excessive_changes reverts now = true
        ↔ 10 < reverts.countP fun t => decide (now - 3600 < t))
    ∧ (∀ now : ℚ,
      check_excessive_changes (List.replicate 11 now) now = true
        ∧ check_excessive_changes (List.replicate 10 now) now = false)
    ∧ (∀ (xs : List ℚ) (x : ℚ),
      (dequeAppend 60 xs x).length = min (xs.length + 1) 60
        ∧ List.IsSuffix (dequeAppend 60 xs x) (xs ++ [x]))
    ∧ (∀ (st : ServiceState) (expected current : ℚ) (now : ℚ),
      temperatures_match current expected = false →
      (check_and_update_temperature st expected (some current) true now).correctionIssued
        = true) := by
  refine ⟨?_, ?_, ?_, ?_⟩
  · intro reverts now
    simp [check_excessive_changes]
  · intro now
    have hself : (now - 3600 < now) := by linarith
    constructor <;>
      simp [check_excessive_changes, countP_replicate, hself]
  · intro xs x
    constructor
    · simp only [dequeAppend, List.length_drop, List.length_append,
        List.length_singleton]
      omega
    · exact List.drop_suffix _ _
  · intro st expected current now h
    simp [check_and_update_temperature, h]

/-- C7 witness: a concrete mismatched cycle (60 vs 68) with a successful set
call records the correction as issued. -/
theorem C7_witness :
    temperatures_match 60 68 = false
    ∧ (check_and_update_temperature ⟨true, 0, []⟩ 68 (some 60) true 0).correctionIssued
      = true :=
  ⟨tm_60_68, C7_excessive_change_warning.2.2.2 ⟨true, 0, []⟩ 68 60 0 tm_60_68⟩

/-! ## Claim C8: consecutive-error counter -/

/-- C8: every failed fetch or correct step increments the consecutive-error
counter; a fully successful check resets it to zero; when after a check the
counter has reached the threshold 3 the loop emits the warning and resets the
counter to zero; and no iteration of the loop body ever clears the `running`
flag — reaching the threshold never halts the loop. -/
theorem C8_consecutive_errors :
    (∀ (st : ServiceState) (expected : ℚ) (setOk : Bool) (now : ℚ),
      (check_and_update_temperature st expected none setOk now).state.consecutive_errors
        = st.consecutive_errors + 1)
    ∧ (∀ (st : ServiceState) (expected current : ℚ) (now : ℚ),
      temperatures_match current expected = false →
      (check_and_update_temperature st expected (some current) false now).state.consecutive_errors
        = st.consecutive_errors + 1)
    ∧ (∀ (st : ServiceState) (expected current : ℚ) (setOk : Bool) (now : ℚ),
      temperatures_match current expected = true ∨ setOk = true →
      (check_and_update_temperature st expected (some current) setOk now).state.consecutive_errors
        = 0)
    ∧ (∀ (st : ServiceState) (expected : ℚ) (fetched : Option ℚ) (setOk : Bool) (now : ℚ),
      error_threshold
          ≤ (check_and_update_temperature st expected fetched setOk now).state.consecutive_errors →
      (run_step st expected fetched setOk now).thresholdWarning = true
        ∧ (run_step st expected fetched setOk now).state.consecutive_errors = 0)
    ∧ (∀ (st : ServiceState) (expected : ℚ) (fetched : Option ℚ) (setOk : Bool) (now : ℚ),
      (run_step st expected fetched setOk now).state.running = st.running) := by
  refine ⟨?_, ?_, ?_, ?_, ?_⟩
  · intro st expected setOk now
    simp [check_and_update_temperature]
  · intro st expected current now h
    simp [check_and_update_temperature, h]
  · intro st expected current setOk now h
    rcases h with h | h
    · simp [check_and_update_temperature, h]
    · by_cases hm : temperatures_match current expected = true <;>
        simp [check_and_update_temperature, hm, h]
  · intro st expected fetched setOk now h
    simp only [run_step]
    rw [if_pos h]
    exact ⟨rfl, rfl⟩
  · intro st expected fetched setOk now
    simp only [run_step]
    split_ifs with h
    · cases fetched with
      | none => simp [check_and_update_temperature]
      | some current =>
        by_cases hm : temperatures_match current expected = true <;>
          cases setOk <;>
          simp [check_and_update_temperature, hm]
    · cases fetched with
      | none => simp [check_and_update_temperature]
      | some current =>
        by_cases hm : temperatures_match current expected = true <;>
          cases setOk <;>
          simp [check_and_update_temperature, hm]

/-- C8 witness: a state already at 2 consecutive errors plus a failed fetch
reaches the threshold; the step warns, resets the counter and keeps the loop
running. -/
theorem C8_witness :
    error_threshold
        ≤ (check_and_update_temperature ⟨true, 2, []⟩ 68 none true 0).state.consecutive_errors
    ∧ (run_step ⟨true, 2, []⟩ 68 none true 0).thresholdWarning = true
    ∧ (run_step ⟨true, 2, []⟩ 68 none true 0).state.consecutive_errors = 0 :=
  ⟨by decide,
    (C8_consecutive_errors.2.2.2.1 ⟨true, 2, []⟩ 68 none true 0 (by decide)).1,
    (C8_consecutive_errors.2.2.2.1 ⟨true, 2, []⟩ 68 none true 0 (by decide)).2⟩

/-! ## Retry-loop lemmas for the auth module -/

lemma refresh_go_stop (outcomes : ℕ → Option String) (now : ℚ) (mr : ℕ)
    (st : AuthState) (attempt : ℕ) (h : ¬ attempt < mr) :
    refresh_go outcomes now mr st attempt = ⟨st, false, [], 0⟩ := by
  rw [refresh_go]
  simp [h]

lemma refresh_go_step_ok (outcomes : ℕ → Option String) (now : ℚ) (mr : ℕ)
    (st : AuthState) (attempt : ℕ) (h : attempt < mr) (tok : String)
    (ho : outcomes attempt = some tok) :
    refresh_go outcomes now mr st attempt
      = ⟨⟨some tok, some (now + TOKEN_LIFETIME), some now⟩, true, [], 1⟩ := by
  rw [refresh_go]
  simp [h, ho, login_and_extract_token]

lemma refresh_go_step_fail (outcomes : ℕ → Option String) (now : ℚ) (mr : ℕ)
    (st : AuthState) (attempt : ℕ) (h : attempt < mr)
    (ho : outcomes attempt = none) :
    refresh_go outcomes now mr st attempt
      = ⟨(refresh_go outcomes now mr st (attempt + 1)).state,
          (refresh_go outcomes now mr st (attempt + 1)).ok,
          (if attempt < mr - 1 then [(2 : ℚ) ^ attempt] else [])
            ++ (refresh_go outcomes now mr st (attempt + 1)).sleeps,
          (refresh_go outcomes now mr st (attempt + 1)).attempts + 1⟩ := by
  conv_lhs => rw [refresh_go]
  simp [h, ho, login_and_extract_token]

lemma refresh_go_attempts_le (outcomes : ℕ → Option String) (now : ℚ) :
    ∀ (k mr : ℕ) (st : AuthState) (attempt : ℕ), mr ≤ attempt + k →
      (refresh_go outcomes now mr st attempt).attempts ≤ k := by
  intro k
  induction k with
  | zero =>
    intro mr st attempt h
    rw [refresh_go_stop outcomes now mr st attempt (by omega)]
  | succ k ih =>
    intro mr st attempt h
    by_cases hlt : attempt < mr
    · cases ho : outcomes attempt with
      | some tok =>
        rw [refresh_go_step_ok outcomes now mr st attempt hlt tok ho]
        show 1 ≤ k + 1
        omega
      | none =>
        rw [refresh_go_step_fail outcomes now mr st attempt hlt ho]
        exact Nat.succ_le_succ (ih mr st (attempt + 1) (by omega))
    · rw [refresh_go_stop outcomes now mr st attempt hlt]
      show 0 ≤ k + 1
      omega

lemma refresh_go_ok_state (outcomes : ℕ → Option String) (now : ℚ) :
    ∀ (k mr : ℕ) (st : AuthState) (attempt : ℕ), mr ≤ attempt + k →
      (refresh_go outcomes now mr st attempt).ok = true →
      ∃ t, (refresh_go outcomes now mr st attempt).state
        = ⟨some t, some (now + TOKEN_LIFETIME), some now⟩ := by
  intro k
  induction k with
  | zero =>
    intro mr st attempt h hok
    rw [refresh_go_stop outcomes now mr st attempt (by omega)] at hok
    exact absurd hok (by simp)
  | succ k ih =>
    intro mr st attempt h hok
    by_cases hlt : attempt < mr
    · cases ho : outcomes attempt with
      | some tok =>
        rw [refresh_go_step_ok outcomes now mr st attempt hlt tok ho]
        exact ⟨tok, rfl⟩
      | none =>
        rw [refresh_go_step_fail outcomes now mr st attempt hlt ho] at hok ⊢
        exact ih mr st (attempt + 1) (by omega) hok
    · rw [refresh_go_stop outcomes now mr st attempt hlt] at hok
      exact absurd hok (by simp)

/-! ## Claim C6: bounded refresh retries -/

/-- C6: a credential refresh makes at most 3 login attempts per call; when
every attempt fails, the loop slept the exponential-backoff durations
`2^0 = 1` and `2^1 = 2` seconds between the attempts, the stored credential
state is returned unchanged, and the call reports failure by returning
(rather than raising). -/
theorem C6_refresh_bounded_retries :
    ∀ (st : AuthState) (outcomes : ℕ → Option String) (now : ℚ),
      (refresh_token st outcomes now 3).attempts ≤ 3
      ∧ ((∀ i, i < 3 → outcomes i = none) →
          refresh_token st outcomes now 3 = ⟨st, false, [1, 2], 3⟩) := by
  intro st outcomes now
  constructor
  · exact refresh_go_attempts_le outcomes now 3 3 st 0 (by omega)
  · intro hall
    have h0 := hall 0 (by omega)
    have h1 := hall 1 (by omega)
    have h2 := hall 2 (by omega)
    have e3 : refresh_go outcomes now 3 st 3 = ⟨st, false, [], 0⟩ :=
      refresh_go_stop outcomes now 3 st 3 (by omega)
    have e2 : refresh_go outcomes now 3 st 2 = ⟨st, false, [], 1⟩ := by
      rw [refresh_go_step_fail outcomes now 3 st 2 (by omega) h2, e3]
      norm_num
    have e1 : refresh_go outcomes now 3 st 1 = ⟨st, false, [2], 2⟩ := by
      rw [refresh_go_step_fail outcomes now 3 st 1 (by omega) h1, e2]
      norm_num
    have e0 : refresh_go outcomes now 3 st 0 = ⟨st, false, [1, 2], 3⟩ := by
      rw [refresh_go_step_fail outcomes now 3 st 0 (by omega) h0, e1]
      norm_num
    rw [refresh_token]
    exact e0

/-- C6 witness: three failing browser outcomes leave an empty credential
record untouched, report failure and perform backoff sleeps of 1 and 2
seconds. -/
theorem C6_witness :
    refresh_token ⟨none, none, none⟩ (fun _ => none) 0 3
      = ⟨⟨none, none, none⟩, false, [1, 2], 3⟩ :=
  (C6_refresh_bounded_retries ⟨none, none, none⟩ (fun _ => none) 0).2
    (fun _ _ => rfl)

/-! ## Claim C9: the token accessor never hands out an expired credential -/

lemma get_token_loaded_spec (st : AuthState) (outcomes : ℕ → Option String)
    (now : ℚ) (tok : String) (st' : AuthState)
    (h : get_token_loaded st outcomes now = (some tok, st')) :
    ∃ exp : ℚ, st'.token_expires_at = some exp ∧ now < exp
      ∧ (REFRESH_BUFFER ≤ exp - now ∨ exp = now + TOKEN_LIFETIME) := by
  by_cases hnr : needs_refresh st now = true
  · rw [get_token_loaded, if_pos hnr] at h
    by_cases hok : (refresh_token st outcomes now 3).ok = true
    · rw [if_pos hok] at h
      obtain ⟨t, hstate⟩ :=
        refresh_go_ok_state outcomes now 3 3 st 0 (by omega) hok
      rw [Prod.mk.injEq] at h
      obtain ⟨_, hst'⟩ := h
      refine ⟨now + TOKEN_LIFETIME, ?_, ?_, Or.inr rfl⟩
      · rw [← hst', refresh_token] at *
        rw [hstate]
      · have : (0 : ℚ) < TOKEN_LIFETIME := by norm_num [TOKEN_LIFETIME]
        linarith
    · rw [if_neg hok] at h
      rw [Prod.mk.injEq] at h
      exact absurd h.1 (by simp)
  · have hnr' : needs_refresh st now = false := by
      simpa using hnr
    rw [get_token_loaded, if_neg hnr] at h
    rw [Prod.mk.injEq] at h
    obtain ⟨_, hst'⟩ := h
    cases hexp : st.token_expires_at with
    | none => simp [needs_refresh, hexp] at hnr'
    | some exp =>
      have hfar : ¬ (exp - now < REFRESH_BUFFER) := by
        simpa [needs_refresh, hexp] using hnr'
      have hbuf : (0 : ℚ) < REFRESH_BUFFER := by norm_num [REFRESH_BUFFER]
      refine ⟨exp, ?_, by linarith, Or.inl (by linarith)⟩
      rw [← hst']
      exact hexp

/-- C9: for every credential state, file content, refresh outcome and current
time, `get_token` returns either no token or a token whose stored expiry
satisfies `now < expiresAt` — indeed either the refresh buffer still
separates `now` from expiry, or the token was refreshed this instant — so an
expired credential is never handed out for a vendor command. -/
theorem C9_get_token_not_expired :
    ∀ (st : AuthState) (fileState : Option AuthState)
      (outcomes : ℕ → Option String) (now : ℚ) (tok : String) (st' : AuthState),
      get_token st fileState outcomes now = (some tok, st') →
      ∃ exp : ℚ, st'.token_expires_at = some exp ∧ now < exp
        ∧ (REFRESH_BUFFER ≤ exp - now ∨ exp = now + TOKEN_LIFETIME) := by
  intro st fileState outcomes now tok st' h
  rw [get_token.eq_def] at h
  cases hjt : st.jwt_token with
  | some t0 =>
    rw [hjt] at h
    exact get_token_loaded_spec st outcomes now tok st' h
  | none =>
    rw [hjt] at h
    cases fileState with
    | none =>
      have h' : ((none : Option String), st) = (some tok, st') := h
      rw [Prod.mk.injEq] at h'
      exact absurd h'.1 (by simp)
    | some fs =>
      exact get_token_loaded_spec fs outcomes now tok st' h

lemma c9_eval :
    get_token ⟨some "tok", some 1000, some 0⟩ none (fun _ => none) 0
      = (some "tok", ⟨some "tok", some 1000, some 0⟩) := by
  norm_num [get_token, get_token_loaded, needs_refresh, REFRESH_BUFFER]

/-- C9 witness: a fresh credential (expiry 1000, `now = 0`) is handed out
as-is, and its expiry is indeed in the future. -/
theorem C9_witness :
    ∃ exp : ℚ,
      (⟨some "tok", some 1000, some 0⟩ : AuthState).token_expires_at = some exp
      ∧ (0 : ℚ) < exp
      ∧ (REFRESH_BUFFER ≤ exp - 0 ∨ exp = 0 + TOKEN_LIFETIME) :=
  C9_get_token_not_expired ⟨some "tok", some 1000, some 0⟩ none (fun _ => none) 0
    "tok" ⟨some "tok", some 1000, some 0⟩ c9_eval

end Ecobee
